import Mathlib

/-!
# Verification of the `apiary` Go client library

Shallow embedding of `apiary.go` and `helpers.go` from `m1ome/apiary`.

The library performs single synchronous HTTP round trips against the fixed
base URL and decodes JSON responses. We model:

* response body bytes abstractly: a byte string is either empty, a non-empty
  string that is not valid JSON, or a non-empty encoding of a JSON value
  (`BodyBytes`); the textual JSON layer of the Go standard library is
  abstracted to the `JsonValue` AST it parses to;
* the body reader (`Body`): `bytes.Buffer.ReadFrom` either reads to EOF
  returning all bytes, or returns a mid-read error;
* the HTTP transport (`http.Client.Do`) as an oracle answering the single
  request an operation issues: either a transport error or a canned
  `Response`;
* Go panics as `Option.none` results: `readResponse` evaluates
  `make([]byte, 0, response.ContentLength)`, which panics for a negative
  capacity (`ContentLength = -1` is Go's "unknown length" value), so
  `readResponse` and everything built on it returns an `Option`;
* `encoding/json.Unmarshal` into the library's result structs: syntactically
  invalid JSON is rejected up front with no fields written; a type mismatch
  on one field records the first error but keeps decoding the remaining
  fields best-effort (Go's documented behaviour), so a non-nil decode error
  can coexist with partially populated output. Unknown object keys are
  ignored; struct keys match the json tag exactly or ASCII
  case-insensitively; `null` leaves scalar targets unchanged and sets
  pointer/slice targets to nil.

Errors are modelled by their message strings (`String`), matching the
source's `errors.New`/`fmt.Sprintf` error construction.
-/

namespace Apiary

/-- JSON values, the abstract syntax the Go `encoding/json` wire format
parses to. Numbers are modelled as integers; no claim depends on floats. -/
inductive JsonValue where
  | null : JsonValue
  | bool (b : Bool) : JsonValue
  | num (n : Int) : JsonValue
  | str (s : String) : JsonValue
  | arr (elems : List JsonValue) : JsonValue
  | obj (fields : List (String × JsonValue)) : JsonValue

/-- Abstraction of a byte string appearing as a response body: empty,
non-empty but not valid JSON, or the (non-empty) encoding of a JSON value. -/
inductive BodyBytes where
  | empty : BodyBytes
  | badJson (s : String) : BodyBytes
  | json (v : JsonValue) : BodyBytes

/-- Returns `true` exactly when the byte string has zero bytes. -/
def BodyBytes.isEmpty : BodyBytes → Bool
  | .empty => true
  | _ => false

/-- The response body reader, as consumed by `bytes.Buffer.ReadFrom`:
either it reads to EOF yielding `content`, or it fails mid-read with an
error after producing some prefix (which `readResponse` discards). -/
inductive Body where
  | ok (content : BodyBytes) : Body
  | failsWith (sofar : BodyBytes) (msg : String) : Body

/-- The fields of Go's `http.Response` the library consumes: `StatusCode`,
`Status` (the status line, e.g. "200 OK"), `ContentLength` (an `int64`,
`-1` when unknown) and `Body`. -/
structure Response where
  statusCode : Nat
  status : String
  contentLength : Int
  body : Body

/-- Model of `readResponse` from helpers.go:

  buf := bytes.NewBuffer(make([]byte, 0, response.ContentLength));
  n, err := buf.ReadFrom(response.Body);
  if err != nil: return nil, err;
  if n == 0: return nil, errors.New("Empty response");
  return buf.Bytes(), nil.

`make([]byte, 0, c)` panics ("makeslice: cap out of range") when `c < 0`,
which we model as `none`. -/
def readResponse (r : Response) : Option (Except String BodyBytes) :=
  if r.contentLength < 0 then
    none
  else
    some (match r.body with
      | .failsWith _ msg => .error msg
      | .ok content =>
        if content.isEmpty then .error "Empty response" else .ok content)

/-- Model of `checkOk` from apiary.go: a non-200 status code yields
`errors.New(fmt.Sprintf("Bad response code: %s", response.Status))`. -/
def checkOk (r : Response) : Option String :=
  if r.statusCode != 200 then some ("Bad response code: " ++ r.status) else none

/-- Model of `bearerToken` from helpers.go: writes `bearer ` then the token into a
fresh buffer, i.e. plain string concatenation. -/
def bearerToken (token : String) : String :=
  "bearer " ++ token

/-- Model of `bearerTokenLegacy` from helpers.go: writes `Token ` then the token. -/
def bearerTokenLegacy (token : String) : String :=
  "Token " ++ token

/-- Model of `ApiaryAPIURL` from apiary.go. -/
def ApiaryAPIURL : String := "https://api.apiary.io/"

/-- Model of `ApiaryActionMe` from apiary.go. -/
def ApiaryActionMe : String := "me"

/-- Model of `ApiaryActionGetApis` from apiary.go. -/
def ApiaryActionGetApis : String := "me/apis"

/-- Model of `ApiaryActionGetTeamApis` applied via `fmt.Sprintf`: the template
`me/teams/%s/apis` with the team name substituted verbatim. -/
def ApiaryActionGetTeamApis (team : String) : String :=
  "me/teams/" ++ team ++ "/apis"

/-- Model of `ApiaryActionFetchBlueprint` applied via `fmt.Sprintf`: the template
`blueprint/get/%s` with the name substituted verbatim. -/
def ApiaryActionFetchBlueprint (name : String) : String :=
  "blueprint/get/" ++ name

/-- Model of `ApiaryActionPublishBlueprint` applied via `fmt.Sprintf`: the template
`blueprint/publish/%s` with the name substituted verbatim. -/
def ApiaryActionPublishBlueprint (name : String) : String :=
  "blueprint/publish/" ++ name

/-- Go `net/http` method-token character set (RFC 7230 tchar). The special
characters are `!#$%&'*+-.^_` ++ backtick ++ `|~`. -/
def isTokenChar (c : Char) : Bool :=
  c.isAlphanum || ("!#$%&\x27*+-.^_\x60|~".toList.contains c)

/-- Go `net/http.validMethod`: non-empty and all token characters. -/
def validMethod (m : String) : Bool :=
  m.length > 0 && m.toList.all isTokenChar

/-- ASCII control bytes, which `net/url.Parse` rejects in a URL. -/
def hasCtlByte (s : String) : Bool :=
  s.toList.any (fun c => c.toNat < 32 || c.toNat == 127)

/-- Model of the failure condition of `http.NewRequest(method, url, body)`:
an empty method defaults to GET; an invalid method token or a control
character in the URL is a construction error. This abstracts the standard
library's checks; the library code under verification only depends on
whether `NewRequest` returned an error, not on which input triggered it. -/
def newRequestError (method url : String) : Option String :=
  let m := if method == "" then "GET" else method
  if !(validMethod m) then some ("net/http: invalid method " ++ method)
  else if hasCtlByte url then some "net/url: invalid control character in URL"
  else none

/-- The request descriptor `http.NewRequest` builds and `client.Do` sends:
method, absolute URL, headers added by the `for k, v := range headers`
loop, and the optional request body. Go iterates the header map in
unspecified order; we keep the source-code insertion order, which no claim
distinguishes. -/
structure HttpRequest where
  method : String
  url : String
  headers : List (String × String)
  reqBody : Option BodyBytes

/-- The transport oracle: the behaviour of `a.client.Do` for the single
request an operation issues — either a network-level error or a response. -/
inductive TransportResult where
  | fail (msg : String) : TransportResult
  | respond (r : Response) : TransportResult

/-- The `(response []byte, res *http.Response, err error)` triple returned
by `request`, with the invariant the code guarantees folded in: on any
error the data is nil (`err` carries the optional `*http.Response`, set
only when the read failed after a successful `Do`); on success both data
and response are present. -/
inductive RequestResult where
  | err (data : Option BodyBytes) (res : Option Response) (e : String) : RequestResult
  | ok (data : BodyBytes) (res : Response) : RequestResult

/-- Model of `request` from helpers.go:

  url := ApiaryAPIURL + path;
  req, err := http.NewRequest(method, url, body); if err != nil return;
  add headers; res, err = a.client.Do(req); if err != nil return;
  response, err = readResponse(res); return.

The first component records the request actually handed to the transport
(`none` when construction failed, so the transport was never invoked).
The second component is `none` when `readResponse` panicked. -/
def request (method path : String) (headers : List (String × String))
    (body : Option BodyBytes) (t : TransportResult) :
    Option HttpRequest × Option RequestResult :=
  let url := ApiaryAPIURL ++ path
  match newRequestError method url with
  | some e => (none, some (.err none none e))
  | none =>
    let req : HttpRequest := ⟨method, url, headers, body⟩
    match t with
    | .fail e => (some req, some (.err none none e))
    | .respond r =>
      (some req,
        match readResponse r with
        | none => none
        | some (.error e) => some (.err none (some r) e)
        | some (.ok data) => some (.ok data r))

/-- Model of `sendRequest` from helpers.go: GET with the modern `Authorization`
header. -/
def sendRequest (token path : String) (t : TransportResult) :
    Option HttpRequest × Option RequestResult :=
  request "GET" path [("Authorization", bearerToken token)] none t

/-- Model of `sendLegacyRequest` from helpers.go: GET with the legacy
`Authentication` header. -/
def sendLegacyRequest (token path : String) (t : TransportResult) :
    Option HttpRequest × Option RequestResult :=
  request "GET" path [("Authentication", bearerTokenLegacy token)] none t

/-- Model of `sendLegacyPostRequest` from helpers.go: POST with the legacy
`Authentication` header and the JSON content type. -/
def sendLegacyPostRequest (token path : String) (body : Option BodyBytes)
    (t : TransportResult) : Option HttpRequest × Option RequestResult :=
  request "POST" path
    [("Authentication", bearerTokenLegacy token),
     ("Content-Type", "application/json; charset=utf-8")] body t

/-- Model of `ApiaryMeResponse.Teams` element: the anonymous struct with json tags
`teamId`, `teamName`, `teamApisUrl`. -/
structure ApiaryTeam where
  ID : String
  Name : String
  URL : String
deriving DecidableEq

/-- Model of `ApiaryMeResponse` from apiary.go: json tags `userId`, `userName`,
`userApisUrl`; the `Teams` field has no tag, so it matches the JSON key
`Teams` (case-insensitively). -/
structure ApiaryMeResponse where
  ID : String
  Name : String
  URL : String
  Teams : List ApiaryTeam
deriving DecidableEq

/-- Model of `ApiaryApiResponse` from apiary.go, json tags `apiName`,
`apiDocumentationUrl`, `apiSubdomain`, `apiIsPrivate`, `apiIsPublic`,
`apiIsTeam`, `apiIsPersonal`. -/
structure ApiaryApiResponse where
  Name : String
  DocumentationURL : String
  Subdomain : String
  Private : Bool
  Public : Bool
  Team : Bool
  Personal : Bool
deriving DecidableEq

/-- Model of `ApiaryApisResponse` from apiary.go, json tag `apis`. -/
structure ApiaryApisResponse where
  Apis : List ApiaryApiResponse
deriving DecidableEq

/-- Model of `ApiaryFetchResponse` from apiary.go, json tags `error`, `message`,
`code`. -/
structure ApiaryFetchResponse where
  Error : Bool
  Message : String
  Code : String
deriving DecidableEq

/-- The anonymous error envelope `PublishBlueprint` decodes a non-201
response body into: json tags `error`, `message`. -/
structure PublishEnvelope where
  Error : Bool
  Message : String
deriving DecidableEq

/-- The zero value of `ApiaryMeResponse`. -/
def zeroMe : ApiaryMeResponse := ⟨"", "", "", []⟩

/-- The zero value of `ApiaryTeam`. -/
def zeroTeam : ApiaryTeam := ⟨"", "", ""⟩

/-- The zero value of `ApiaryApiResponse`. -/
def zeroApi : ApiaryApiResponse := ⟨"", "", "", false, false, false, false⟩

/-- The zero value of `ApiaryApisResponse`. -/
def zeroApis : ApiaryApisResponse := ⟨[]⟩

/-- The zero value of `ApiaryFetchResponse`. -/
def zeroFetch : ApiaryFetchResponse := ⟨false, "", ""⟩

/-- The zero value of the publish error envelope. -/
def zeroEnvelope : PublishEnvelope := ⟨false, ""⟩

/-- First-error accumulation: Go's `decodeState.saveError` keeps the first
error encountered and continues decoding. -/
def firstErr (a b : Option String) : Option String :=
  match a with
  | some e => some e
  | none => b

/-- The name `encoding/json` uses for a JSON value kind in its
`UnmarshalTypeError` message. -/
def jsonKindName : JsonValue → String
  | .null => "null"
  | .bool _ => "bool"
  | .num _ => "number"
  | .str _ => "string"
  | .arr _ => "array"
  | .obj _ => "object"

/-- Model of the `json: cannot unmarshal ... into Go value of type ...`
message of `encoding/json.UnmarshalTypeError`. -/
def typeMismatch (v : JsonValue) (target : String) : String :=
  "json: cannot unmarshal " ++ jsonKindName v ++ " into Go value of type " ++ target

/-- ASCII case folding of a key, character by character. -/
def asciiFold (s : String) : List Char :=
  s.data.map Char.toLower

/-- Struct-key matching of `encoding/json`: the json tag matched exactly,
or ASCII case-insensitively (`foldFunc` approximated by `Char.toLower`). -/
def keyMatches (tag k : String) : Bool :=
  tag == k || asciiFold tag == asciiFold k

/-- Decoding a JSON value into a `string` struct field: a JSON string sets
the field, `null` leaves it unchanged, anything else is a type error that
leaves it unchanged. -/
def decodeStringField (cur : String) (v : JsonValue) (target : String) :
    String × Option String :=
  match v with
  | .str s => (s, none)
  | .null => (cur, none)
  | v => (cur, some (typeMismatch v target))

/-- Decoding a JSON value into a `bool` struct field. -/
def decodeBoolField (cur : Bool) (v : JsonValue) (target : String) :
    Bool × Option String :=
  match v with
  | .bool b => (b, none)
  | .null => (cur, none)
  | v => (cur, some (typeMismatch v target))

/-- One key/value pair of a JSON object applied to the publish error
envelope: matching fields are decoded, unknown keys ignored, the first
error kept. -/
def applyEnvelopeField (acc : PublishEnvelope × Option String)
    (kv : String × JsonValue) : PublishEnvelope × Option String :=
  if keyMatches "error" kv.1 then
    let (b, e) := decodeBoolField acc.1.Error kv.2 "bool"
    (⟨b, acc.1.Message⟩, firstErr acc.2 e)
  else if keyMatches "message" kv.1 then
    let (s, e) := decodeStringField acc.1.Message kv.2 "string"
    (⟨acc.1.Error, s⟩, firstErr acc.2 e)
  else acc

/-- Decoding a JSON value into the publish error envelope struct. -/
def decodeEnvelopeValue : JsonValue → PublishEnvelope × Option String
  | .null => (zeroEnvelope, none)
  | .obj fields => fields.foldl applyEnvelopeField (zeroEnvelope, none)
  | v => (zeroEnvelope, some (typeMismatch v "struct"))

/-- Model of `json.Unmarshal(data, &apiaryError)` in `PublishBlueprint`: empty data
and invalid JSON are syntax errors detected before anything is written
(Go validates the whole input first); valid JSON is decoded into the
envelope best-effort. -/
def unmarshalEnvelope : BodyBytes → PublishEnvelope × Option String
  | .empty => (zeroEnvelope, some "unexpected end of JSON input")
  | .badJson _ => (zeroEnvelope, some "invalid character in JSON input")
  | .json v => decodeEnvelopeValue v

/-- One object key applied to an `ApiaryFetchResponse`. -/
def applyFetchField (acc : ApiaryFetchResponse × Option String)
    (kv : String × JsonValue) : ApiaryFetchResponse × Option String :=
  if keyMatches "error" kv.1 then
    let (b, e) := decodeBoolField acc.1.Error kv.2 "bool"
    (⟨b, acc.1.Message, acc.1.Code⟩, firstErr acc.2 e)
  else if keyMatches "message" kv.1 then
    let (s, e) := decodeStringField acc.1.Message kv.2 "string"
    (⟨acc.1.Error, s, acc.1.Code⟩, firstErr acc.2 e)
  else if keyMatches "code" kv.1 then
    let (s, e) := decodeStringField acc.1.Code kv.2 "string"
    (⟨acc.1.Error, acc.1.Message, s⟩, firstErr acc.2 e)
  else acc

/-- Decoding a JSON value into an `ApiaryFetchResponse` struct. -/
def decodeFetchValue : JsonValue → ApiaryFetchResponse × Option String
  | .null => (zeroFetch, none)
  | .obj fields => fields.foldl applyFetchField (zeroFetch, none)
  | v => (zeroFetch, some (typeMismatch v "struct"))

/-- Model of `json.Unmarshal(data, &blueprint)` in `FetchBlueprint`, where
`blueprint` is a nil `*ApiaryFetchResponse`: JSON `null` leaves the
pointer nil; any other value allocates the struct and decodes into it. -/
def unmarshalFetchPtr : BodyBytes → Option ApiaryFetchResponse × Option String
  | .empty => (none, some "unexpected end of JSON input")
  | .badJson _ => (none, some "invalid character in JSON input")
  | .json .null => (none, none)
  | .json v =>
    let (r, e) := decodeFetchValue v
    (some r, e)

/-- One object key applied to an `ApiaryTeam` element. -/
def applyTeamField (acc : ApiaryTeam × Option String)
    (kv : String × JsonValue) : ApiaryTeam × Option String :=
  if keyMatches "teamId" kv.1 then
    let (s, e) := decodeStringField acc.1.ID kv.2 "string"
    (⟨s, acc.1.Name, acc.1.URL⟩, firstErr acc.2 e)
  else if keyMatches "teamName" kv.1 then
    let (s, e) := decodeStringField acc.1.Name kv.2 "string"
    (⟨acc.1.ID, s, acc.1.URL⟩, firstErr acc.2 e)
  else if keyMatches "teamApisUrl" kv.1 then
    let (s, e) := decodeStringField acc.1.URL kv.2 "string"
    (⟨acc.1.ID, acc.1.Name, s⟩, firstErr acc.2 e)
  else acc

/-- Decoding a JSON value into an `ApiaryTeam`. -/
def decodeTeamValue : JsonValue → ApiaryTeam × Option String
  | .null => (zeroTeam, none)
  | .obj fields => fields.foldl applyTeamField (zeroTeam, none)
  | v => (zeroTeam, some (typeMismatch v "struct"))

/-- Decoding a JSON value into the `Teams` slice: `null` sets the slice
nil, an array decodes each element into a fresh zero `ApiaryTeam`
best-effort, anything else is a type error leaving the slice unchanged. -/
def decodeTeamsField (cur : List ApiaryTeam) (v : JsonValue) :
    List ApiaryTeam × Option String :=
  match v with
  | .null => ([], none)
  | .arr xs =>
    let decoded := xs.map decodeTeamValue
    (decoded.map Prod.fst, decoded.foldl (fun e p => firstErr e p.2) none)
  | v => (cur, some (typeMismatch v "slice"))

/-- One object key applied to an `ApiaryMeResponse`. -/
def applyMeField (acc : ApiaryMeResponse × Option String)
    (kv : String × JsonValue) : ApiaryMeResponse × Option String :=
  if keyMatches "userId" kv.1 then
    let (s, e) := decodeStringField acc.1.ID kv.2 "string"
    (⟨s, acc.1.Name, acc.1.URL, acc.1.Teams⟩, firstErr acc.2 e)
  else if keyMatches "userName" kv.1 then
    let (s, e) := decodeStringField acc.1.Name kv.2 "string"
    (⟨acc.1.ID, s, acc.1.URL, acc.1.Teams⟩, firstErr acc.2 e)
  else if keyMatches "userApisUrl" kv.1 then
    let (s, e) := decodeStringField acc.1.URL kv.2 "string"
    (⟨acc.1.ID, acc.1.Name, s, acc.1.Teams⟩, firstErr acc.2 e)
  else if keyMatches "Teams" kv.1 then
    let (ts, e) := decodeTeamsField acc.1.Teams kv.2
    (⟨acc.1.ID, acc.1.Name, acc.1.URL, ts⟩, firstErr acc.2 e)
  else acc

/-- Decoding a JSON value into an `ApiaryMeResponse` struct. -/
def decodeMeValue : JsonValue → ApiaryMeResponse × Option String
  | .null => (zeroMe, none)
  | .obj fields => fields.foldl applyMeField (zeroMe, none)
  | v => (zeroMe, some (typeMismatch v "struct"))

/-- Model of `json.Unmarshal(data, &me)` in `Me` (non-pointer target). -/
def unmarshalMe : BodyBytes → ApiaryMeResponse × Option String
  | .empty => (zeroMe, some "unexpected end of JSON input")
  | .badJson _ => (zeroMe, some "invalid character in JSON input")
  | .json v => decodeMeValue v

/-- One object key applied to an `ApiaryApiResponse` element. -/
def applyApiField (acc : ApiaryApiResponse × Option String)
    (kv : String × JsonValue) : ApiaryApiResponse × Option String :=
  let r := acc.1
  if keyMatches "apiName" kv.1 then
    let (s, e) := decodeStringField r.Name kv.2 "string"
    (⟨s, r.DocumentationURL, r.Subdomain, r.Private, r.Public, r.Team, r.Personal⟩,
      firstErr acc.2 e)
  else if keyMatches "apiDocumentationUrl" kv.1 then
    let (s, e) := decodeStringField r.DocumentationURL kv.2 "string"
    (⟨r.Name, s, r.Subdomain, r.Private, r.Public, r.Team, r.Personal⟩,
      firstErr acc.2 e)
  else if keyMatches "apiSubdomain" kv.1 then
    let (s, e) := decodeStringField r.Subdomain kv.2 "string"
    (⟨r.Name, r.DocumentationURL, s, r.Private, r.Public, r.Team, r.Personal⟩,
      firstErr acc.2 e)
  else if keyMatches "apiIsPrivate" kv.1 then
    let (b, e) := decodeBoolField r.Private kv.2 "bool"
    (⟨r.Name, r.DocumentationURL, r.Subdomain, b, r.Public, r.Team, r.Personal⟩,
      firstErr acc.2 e)
  else if keyMatches "apiIsPublic" kv.1 then
    let (b, e) := decodeBoolField r.Public kv.2 "bool"
    (⟨r.Name, r.DocumentationURL, r.Subdomain, r.Private, b, r.Team, r.Personal⟩,
      firstErr acc.2 e)
  else if keyMatches "apiIsTeam" kv.1 then
    let (b, e) := decodeBoolField r.Team kv.2 "bool"
    (⟨r.Name, r.DocumentationURL, r.Subdomain, r.Private, r.Public, b, r.Personal⟩,
      firstErr acc.2 e)
  else if keyMatches "apiIsPersonal" kv.1 then
    let (b, e) := decodeBoolField r.Personal kv.2 "bool"
    (⟨r.Name, r.DocumentationURL, r.Subdomain, r.Private, r.Public, r.Team, b⟩,
      firstErr acc.2 e)
  else acc

/-- Decoding a JSON value into an `ApiaryApiResponse`. -/
def decodeApiValue : JsonValue → ApiaryApiResponse × Option String
  | .null => (zeroApi, none)
  | .obj fields => fields.foldl applyApiField (zeroApi, none)
  | v => (zeroApi, some (typeMismatch v "struct"))

/-- Decoding a JSON value into the `Apis` slice. -/
def decodeApiListField (cur : List ApiaryApiResponse) (v : JsonValue) :
    List ApiaryApiResponse × Option String :=
  match v with
  | .null => ([], none)
  | .arr xs =>
    let decoded := xs.map decodeApiValue
    (decoded.map Prod.fst, decoded.foldl (fun e p => firstErr e p.2) none)
  | v => (cur, some (typeMismatch v "slice"))

/-- One object key applied to an `ApiaryApisResponse`. -/
def applyApisField (acc : ApiaryApisResponse × Option String)
    (kv : String × JsonValue) : ApiaryApisResponse × Option String :=
  if keyMatches "apis" kv.1 then
    let (xs, e) := decodeApiListField acc.1.Apis kv.2
    (⟨xs⟩, firstErr acc.2 e)
  else acc

/-- Decoding a JSON value into an `ApiaryApisResponse` struct. -/
def decodeApisValue : JsonValue → ApiaryApisResponse × Option String
  | .null => (zeroApis, none)
  | .obj fields => fields.foldl applyApisField (zeroApis, none)
  | v => (zeroApis, some (typeMismatch v "struct"))

/-- Model of `json.Unmarshal(data, &apis)` in `GetApis`/`GetTeamApis`, where `apis`
is a nil `*ApiaryApisResponse`. -/
def unmarshalApisPtr : BodyBytes → Option ApiaryApisResponse × Option String
  | .empty => (none, some "unexpected end of JSON input")
  | .badJson _ => (none, some "invalid character in JSON input")
  | .json .null => (none, none)
  | .json v =>
    let (r, e) := decodeApisValue v
    (some r, e)

/-- Model of `Me` from apiary.go, together with the request handed to the
transport. The operation: `sendRequest(ApiaryActionMe)`; return on error;
`checkOk(response)`; return on error; `json.Unmarshal(data, &me)`.
The outer `Option` is `none` when the pipeline panicked. -/
def MeCall (token : String) (t : TransportResult) :
    Option HttpRequest × Option (ApiaryMeResponse × Option String) :=
  let out := sendRequest token ApiaryActionMe t
  (out.1, out.2.map (fun rr =>
    match rr with
    | .err _ _ e => (zeroMe, some e)
    | .ok data res =>
      match checkOk res with
      | some e => (zeroMe, some e)
      | none => unmarshalMe data))

/-- The `(me, err)` result of `Me` from apiary.go. -/
def Me (token : String) (t : TransportResult) :
    Option (ApiaryMeResponse × Option String) :=
  (MeCall token t).2

/-- Model of `GetApis` from apiary.go, with the request handed to the transport. -/
def GetApisCall (token : String) (t : TransportResult) :
    Option HttpRequest × Option (Option ApiaryApisResponse × Option String) :=
  let out := sendRequest token ApiaryActionGetApis t
  (out.1, out.2.map (fun rr =>
    match rr with
    | .err _ _ e => (none, some e)
    | .ok data res =>
      match checkOk res with
      | some e => (none, some e)
      | none => unmarshalApisPtr data))

/-- The `(apis, err)` result of `GetApis` from apiary.go (`apis` is a
pointer, modelled as `Option`; `none` is the nil zero value). -/
def GetApis (token : String) (t : TransportResult) :
    Option (Option ApiaryApisResponse × Option String) :=
  (GetApisCall token t).2

/-- Model of `GetTeamApis` from apiary.go, with the request handed to the
transport: the path is `fmt.Sprintf(ApiaryActionGetTeamApis, team)`. -/
def GetTeamApisCall (token team : String) (t : TransportResult) :
    Option HttpRequest × Option (Option ApiaryApisResponse × Option String) :=
  let out := sendRequest token (ApiaryActionGetTeamApis team) t
  (out.1, out.2.map (fun rr =>
    match rr with
    | .err _ _ e => (none, some e)
    | .ok data res =>
      match checkOk res with
      | some e => (none, some e)
      | none => unmarshalApisPtr data))

/-- The `(apis, err)` result of `GetTeamApis` from apiary.go. -/
def GetTeamApis (token team : String) (t : TransportResult) :
    Option (Option ApiaryApisResponse × Option String) :=
  (GetTeamApisCall token team t).2

/-- Model of `FetchBlueprint` from apiary.go, with the request handed to the
transport: legacy GET on `blueprint/get/<name>`, `checkOk`, then
`json.Unmarshal(data, &blueprint)` into a nil pointer. -/
def FetchBlueprintCall (token name : String) (t : TransportResult) :
    Option HttpRequest × Option (Option ApiaryFetchResponse × Option String) :=
  let out := sendLegacyRequest token (ApiaryActionFetchBlueprint name) t
  (out.1, out.2.map (fun rr =>
    match rr with
    | .err _ _ e => (none, some e)
    | .ok data res =>
      match checkOk res with
      | some e => (none, some e)
      | none => unmarshalFetchPtr data))

/-- The `(blueprint, err)` result of `FetchBlueprint` from apiary.go. -/
def FetchBlueprint (token name : String) (t : TransportResult) :
    Option (Option ApiaryFetchResponse × Option String) :=
  (FetchBlueprintCall token name t).2

/-- Model of `PublishBlueprint` from apiary.go, with the request handed to the
transport. `json.Marshal(map[string]string{"code": string(content)})`
cannot fail and produces the object with the single key `code`; the POST
goes to `blueprint/publish/<name>`. On a non-201 status the body is
decoded as the error envelope: a decode error is returned as is; an
envelope with the error flag set becomes
`errors.New(fmt.Sprintf("Creation failed: %s", message))`; otherwise the
operation falls through to `published = true`. -/
def PublishBlueprintCall (token name content : String) (t : TransportResult) :
    Option HttpRequest × Option (Bool × Option String) :=
  let jsonData : BodyBytes := .json (.obj [("code", .str content)])
  let out := sendLegacyPostRequest token (ApiaryActionPublishBlueprint name)
    (some jsonData) t
  (out.1, out.2.map (fun rr =>
    match rr with
    | .err _ _ e => (false, some e)
    | .ok data res =>
      if res.statusCode != 201 then
        match unmarshalEnvelope data with
        | (_, some e) => (false, some e)
        | (env, none) =>
          if env.Error then (false, some ("Creation failed: " ++ env.Message))
          else (true, none)
      else (true, none)))

/-- The `(published, err)` result of `PublishBlueprint` from apiary.go. -/
def PublishBlueprint (token name content : String) (t : TransportResult) :
    Option (Bool × Option String) :=
  (PublishBlueprintCall token name content t).2

/-- Model of `json.Marshal` applied to an `ApiaryFetchResponse` value: a struct
marshals to the object with its tagged fields in declaration order. -/
def encodeFetchResponse (r : ApiaryFetchResponse) : JsonValue :=
  .obj [("error", .bool r.Error), ("message", .str r.Message), ("code", .str r.Code)]

/-- Failure-path contract of a GET-style operation, following the
specification's words (section 7): a transport failure, an empty body, a
mid-read failure and an unexpected status each return a non-nil error and
the zero-value/absent result (a non-200 status carrying the status line),
and on a 200 status with a non-empty body the JSON decoder's outcome —
its error included — is returned unchanged, never swallowed. -/
def GetOpFailureSpec {R : Type} (zero : R) (decode : BodyBytes → R × Option String)
    (run : TransportResult → Option (R × Option String)) : Prop :=
  (∀ e, run (.fail e) = some (zero, some e)) ∧
  (∀ st stx cl, 0 ≤ cl →
    run (.respond ⟨st, stx, cl, .ok .empty⟩) = some (zero, some "Empty response")) ∧
  (∀ st stx cl pre m, 0 ≤ cl →
    run (.respond ⟨st, stx, cl, .failsWith pre m⟩) = some (zero, some m)) ∧
  (∀ st stx cl bb, 0 ≤ cl → bb.isEmpty = false → st ≠ 200 →
    run (.respond ⟨st, stx, cl, .ok bb⟩) =
      some (zero, some ("Bad response code: " ++ stx))) ∧
  (∀ stx cl bb, 0 ≤ cl → bb.isEmpty = false →
    run (.respond ⟨200, stx, cl, .ok bb⟩) = some (decode bb))

end Apiary

namespace Apiary

theorem validMethod_get : validMethod "GET" = true := by decide

theorem validMethod_post : validMethod "POST" = true := by decide

theorem newRequestError_ok (method url : String) (hm : validMethod method = true)
    (hc : hasCtlByte url = false) : newRequestError method url = none := by
  have h0 : (method == "") = false := by
    cases heq : method == "" with
    | false => rfl
    | true =>
      have : method = "" := by simpa using heq
      subst this
      simp [validMethod] at hm
  simp [newRequestError, h0, hm, hc]

theorem hasCtl_append (a b : String) (ha : hasCtlByte a = false)
    (hb : hasCtlByte b = false) : hasCtlByte (a ++ b) = false := by
  simp only [hasCtlByte, String.toList] at *
  simp [String.data_append, List.any_append, ha, hb]

theorem request_sent_some (method path : String) (headers : List (String × String))
    (body : Option BodyBytes) (t : TransportResult)
    (h : newRequestError method (ApiaryAPIURL ++ path) = none) :
    (request method path headers body t).1 =
      some ⟨method, ApiaryAPIURL ++ path, headers, body⟩ := by
  cases t <;> simp [request, h]

theorem request_sent_of_some (method path : String) (headers : List (String × String))
    (body : Option BodyBytes) (t : TransportResult) (d : HttpRequest)
    (h : (request method path headers body t).1 = some d) :
    d = ⟨method, ApiaryAPIURL ++ path, headers, body⟩ := by
  cases hne : newRequestError method (ApiaryAPIURL ++ path) with
  | none =>
    rw [request_sent_some method path headers body t hne] at h
    exact (Option.some_injective _ h).symm
  | some e =>
    cases t <;> simp [request, hne] at h

theorem request_fail_eq (method path : String) (headers : List (String × String))
    (body : Option BodyBytes) (e : String)
    (h : newRequestError method (ApiaryAPIURL ++ path) = none) :
    request method path headers body (.fail e) =
      (some ⟨method, ApiaryAPIURL ++ path, headers, body⟩, some (.err none none e)) := by
  simp [request, h]

theorem request_respond_eq (method path : String) (headers : List (String × String))
    (body : Option BodyBytes) (r : Response)
    (h : newRequestError method (ApiaryAPIURL ++ path) = none) :
    request method path headers body (.respond r) =
      (some ⟨method, ApiaryAPIURL ++ path, headers, body⟩,
        match readResponse r with
        | none => none
        | some (.error e) => some (.err none (some r) e)
        | some (.ok data) => some (.ok data r)) := by
  simp [request, h]

theorem readResponse_ok_nonempty (st : Nat) (stx : String) (cl : Int)
    (bb : BodyBytes) (hcl : 0 ≤ cl) (hbb : bb.isEmpty = false) :
    readResponse ⟨st, stx, cl, .ok bb⟩ = some (.ok bb) := by
  simp [readResponse, not_lt.mpr hcl, hbb]

theorem readResponse_ok_empty (st : Nat) (stx : String) (cl : Int) (hcl : 0 ≤ cl) :
    readResponse ⟨st, stx, cl, .ok .empty⟩ = some (.error "Empty response") := by
  simp [readResponse, not_lt.mpr hcl, BodyBytes.isEmpty]

theorem readResponse_failsWith (st : Nat) (stx : String) (cl : Int)
    (pre : BodyBytes) (m : String) (hcl : 0 ≤ cl) :
    readResponse ⟨st, stx, cl, .failsWith pre m⟩ = some (.error m) := by
  simp [readResponse, not_lt.mpr hcl]

theorem getPipelineSpec {R : Type} (zero : R) (dec : BodyBytes → R × Option String)
    (method path : String) (headers : List (String × String))
    (run : TransportResult → Option (R × Option String))
    (hreq : newRequestError method (ApiaryAPIURL ++ path) = none)
    (hrun : ∀ t, run t = (request method path headers none t).2.map (fun rr =>
      match rr with
      | .err _ _ e => (zero, some e)
      | .ok data res =>
        match checkOk res with
        | some e => (zero, some e)
        | none => dec data)) :
    GetOpFailureSpec zero dec run := by
  refine ⟨?_, ?_, ?_, ?_, ?_⟩
  · intro e
    rw [hrun, request_fail_eq _ _ _ _ _ hreq]
    simp
  · intro st stx cl hcl
    rw [hrun, request_respond_eq _ _ _ _ _ hreq,
      readResponse_ok_empty st stx cl hcl]
    simp
  · intro st stx cl pre m hcl
    rw [hrun, request_respond_eq _ _ _ _ _ hreq,
      readResponse_failsWith st stx cl pre m hcl]
    simp
  · intro st stx cl bb hcl hbb hst
    have hb : (st != 200) = true := bne_iff_ne.mpr hst
    rw [hrun, request_respond_eq _ _ _ _ _ hreq,
      readResponse_ok_nonempty st stx cl bb hcl hbb]
    simp [checkOk, hb, hst]
  · intro stx cl bb hcl hbb
    rw [hrun, request_respond_eq _ _ _ _ _ hreq,
      readResponse_ok_nonempty 200 stx cl bb hcl hbb]
    simp [checkOk]

/-- C2: whenever the body is read fully and successfully but yields zero
bytes, `readResponse` returns the error "Empty response" and no bytes,
for every status code and every declared content length: any completed
execution on a zero-byte body yields exactly that error (first conjunct,
all content lengths — a negative content length admits no completed
execution), and for every nonnegative content length the execution
completes with that error (second conjunct). -/
theorem readResponse_zero_bytes_empty_error (st : Nat) (stx : String) (cl : Int) :
    (∀ r, readResponse ⟨st, stx, cl, .ok .empty⟩ = some r →
      r = .error "Empty response") ∧
    (0 ≤ cl →
      readResponse ⟨st, stx, cl, .ok .empty⟩ = some (.error "Empty response")) := by
  constructor
  · intro r h
    by_cases hcl : cl < 0
    · simp [readResponse, hcl] at h
    · rw [readResponse_ok_empty st stx cl (not_lt.mp hcl)] at h
      exact (Option.some_injective _ h).symm
  · exact readResponse_ok_empty st stx cl

/-- Witness for C2, at the content length the repository's own test uses
(declared length 10, zero bytes actually read, status 200). -/
theorem readResponse_zero_bytes_empty_error_witness :
    readResponse ⟨200, "200 OK", 10, .ok .empty⟩ = some (.error "Empty response") :=
  (readResponse_zero_bytes_empty_error 200 "200 OK" 10).2 (by decide)

/-- C3 (code bug): `readResponse` is not total. At the standard "unknown
length" content-length value `-1` (any chunked-transfer response), the
buffer allocation `make([]byte, 0, response.ContentLength)` panics before
the body is ever read (first conjunct, panic modelled as `none`); for
nonnegative declared lengths both smaller and larger than the actual body
the read returns exactly the body bytes, the length acting only as a
capacity hint (remaining conjuncts). -/
theorem readResponse_negative_content_length_panics :
    readResponse ⟨200, "200 OK", -1, .ok (.badJson "hello")⟩ = none ∧
    readResponse ⟨200, "200 OK", 0, .ok (.badJson "hello")⟩
      = some (.ok (.badJson "hello")) ∧
    readResponse ⟨200, "200 OK", 999, .ok (.badJson "hello")⟩
      = some (.ok (.badJson "hello")) := by
  exact ⟨rfl, rfl, rfl⟩

/-- C4: when the body reader fails mid-read, `readResponse` returns the
underlying read failure itself — its message preserved — and in
particular not the empty-response error, even when the failure produced
zero bytes: any completed execution on a failing reader yields exactly
the underlying error (first conjunct), and for every nonnegative content
length the execution completes with it (second conjunct). -/
theorem readResponse_midread_failure_propagates (st : Nat) (stx : String)
    (cl : Int) (pre : BodyBytes) (m : String) :
    (∀ r, readResponse ⟨st, stx, cl, .failsWith pre m⟩ = some r → r = .error m) ∧
    (0 ≤ cl → readResponse ⟨st, stx, cl, .failsWith pre m⟩ = some (.error m)) := by
  constructor
  · intro r h
    by_cases hcl : cl < 0
    · simp [readResponse, hcl] at h
    · rw [readResponse_failsWith st stx cl pre m (not_lt.mp hcl)] at h
      exact (Option.some_injective _ h).symm
  · exact readResponse_failsWith st stx cl pre m

/-- Witness for C4: the repository's own test case — a reader failing
with "OMG!" after zero bytes under declared length 10 — surfaces "OMG!",
not "Empty response". -/
theorem readResponse_midread_failure_propagates_witness :
    readResponse ⟨200, "200 OK", 10, .failsWith .empty "OMG!"⟩
      = some (.error "OMG!") :=
  (readResponse_midread_failure_propagates 200 "200 OK" 10 .empty "OMG!").2 (by decide)

/-- C8: whenever request construction fails, `request` returns exactly
the construction error with no request descriptor recorded — the first
component `none` says the transport was never invoked — and this holds
for every transport behaviour `t`, so no network activity can occur on
such an execution. -/
theorem construction_error_no_transport (method path : String)
    (headers : List (String × String)) (body : Option BodyBytes)
    (t : TransportResult) (e : String)
    (h : newRequestError method (ApiaryAPIURL ++ path) = some e) :
    request method path headers body t = (none, some (.err none none e)) := by
  cases t <;> simp [request, h]

/-- Witness for C8: a method containing a space is not a valid method
token; construction fails and the canned transport answer is never
consulted. -/
theorem construction_error_no_transport_witness :
    request "BAD METHOD" "me" [] none (.fail "transport invoked")
      = (none, some (.err none none "net/http: invalid method BAD METHOD")) :=
  construction_error_no_transport "BAD METHOD" "me" [] none
    (.fail "transport invoked") "net/http: invalid method BAD METHOD" (by decide)

/-- C9: JSON-encoding an `ApiaryFetchResponse` and decoding the result
the way `FetchBlueprint` does yields the value back — in particular a
`Code` field equal, character for character, to the original blueprint
text; the second conjunct checks the specification's example with
embedded newlines. -/
theorem fetch_response_roundtrip (r : ApiaryFetchResponse) :
    unmarshalFetchPtr (.json (encodeFetchResponse r)) = (some r, none) ∧
    unmarshalFetchPtr (.json (encodeFetchResponse
        ⟨false, "", "FORMAT: 1A\nHOST: http://api.example.com/\n"⟩))
      = (some ⟨false, "", "FORMAT: 1A\nHOST: http://api.example.com/\n"⟩, none) := by
  constructor
  · obtain ⟨e, m, c⟩ := r
    cases e <;> rfl
  · rfl

/-- C6: the modern auth helper is exactly `bearer ` ++ token and the
legacy helper exactly `Token ` ++ token, as pure string computations;
every request `Me`, `GetApis` and `GetTeamApis` hand to the transport is
a GET carrying the modern value under `Authorization`, every request
`FetchBlueprint` hands over is a GET carrying the legacy value under
`Authentication`, and every request `PublishBlueprint` hands over is a
POST carrying the legacy value under `Authentication` together with
`Content-Type: application/json; charset=utf-8`. -/
theorem auth_header_schemes (token team name content : String) (t : TransportResult) :
    bearerToken token = "bearer " ++ token ∧
    bearerTokenLegacy token = "Token " ++ token ∧
    (∀ d, (MeCall token t).1 = some d →
      d.method = "GET" ∧ d.headers = [("Authorization", bearerToken token)]) ∧
    (∀ d, (GetApisCall token t).1 = some d →
      d.method = "GET" ∧ d.headers = [("Authorization", bearerToken token)]) ∧
    (∀ d, (GetTeamApisCall token team t).1 = some d →
      d.method = "GET" ∧ d.headers = [("Authorization", bearerToken token)]) ∧
    (∀ d, (FetchBlueprintCall token name t).1 = some d →
      d.method = "GET" ∧ d.headers = [("Authentication", bearerTokenLegacy token)]) ∧
    (∀ d, (PublishBlueprintCall token name content t).1 = some d →
      d.method = "POST" ∧
      d.headers = [("Authentication", bearerTokenLegacy token),
        ("Content-Type", "application/json; charset=utf-8")]) := by
  refine ⟨rfl, rfl, ?_, ?_, ?_, ?_, ?_⟩ <;>
  · intro d hd
    simp only [MeCall, GetApisCall, GetTeamApisCall, FetchBlueprintCall,
      PublishBlueprintCall, sendRequest, sendLegacyRequest,
      sendLegacyPostRequest] at hd
    have he := request_sent_of_some _ _ _ _ _ _ hd
    subst he
    exact ⟨rfl, rfl⟩

/-- Witness for C6, on a concrete token and a transport refusing the
connection: the descriptor `Me` handed over is a GET on the modern
scheme. -/
theorem auth_header_schemes_witness :
    (HttpRequest.mk "GET" "https://api.apiary.io/me"
        [("Authorization", "bearer tok")] none).method = "GET" ∧
    (HttpRequest.mk "GET" "https://api.apiary.io/me"
        [("Authorization", "bearer tok")] none).headers
      = [("Authorization", bearerToken "tok")] :=
  (auth_header_schemes "tok" "team" "repo" "content" (.fail "refused")).2.2.1
    (HttpRequest.mk "GET" "https://api.apiary.io/me"
      [("Authorization", "bearer tok")] none) rfl

/-- C7: the URL of every request handed to the transport is exactly the
fixed base URL `https://api.apiary.io/` concatenated with the
operation's path template with the caller's identifier substituted
verbatim — no encoding or validation is applied by the library to the
team or repository name. -/
theorem request_url_construction (token team name content : String)
    (t : TransportResult) :
    ApiaryAPIURL = "https://api.apiary.io/" ∧
    (∀ d, (MeCall token t).1 = some d →
      d.url = "https://api.apiary.io/" ++ "me") ∧
    (∀ d, (GetApisCall token t).1 = some d →
      d.url = "https://api.apiary.io/" ++ "me/apis") ∧
    (∀ d, (GetTeamApisCall token team t).1 = some d →
      d.url = "https://api.apiary.io/" ++ ("me/teams/" ++ team ++ "/apis")) ∧
    (∀ d, (FetchBlueprintCall token name t).1 = some d →
      d.url = "https://api.apiary.io/" ++ ("blueprint/get/" ++ name)) ∧
    (∀ d, (PublishBlueprintCall token name content t).1 = some d →
      d.url = "https://api.apiary.io/" ++ ("blueprint/publish/" ++ name)) := by
  refine ⟨rfl, ?_, ?_, ?_, ?_, ?_⟩ <;>
  · intro d hd
    simp only [MeCall, GetApisCall, GetTeamApisCall, FetchBlueprintCall,
      PublishBlueprintCall, sendRequest, sendLegacyRequest,
      sendLegacyPostRequest] at hd
    have he := request_sent_of_some _ _ _ _ _ _ hd
    subst he
    rfl

/-- C1: for every publish round trip that succeeds with a non-empty body:
a 201 status reports `published = true` with no error; on any other
status the body is decoded as the error envelope, a failed decode
returning the decode error, a decoded envelope with the error flag set
returning the rejection error `Creation failed: <message>`, and a
decoded envelope with the flag clear reporting `published = true` with
no error despite the non-201 status. -/
theorem publishBlueprint_response_cases (token name content stx : String)
    (st : Nat) (cl : Int) (bb : BodyBytes)
    (hname : hasCtlByte (ApiaryAPIURL ++ ApiaryActionPublishBlueprint name) = false)
    (hcl : 0 ≤ cl) (hbb : bb.isEmpty = false) :
    (st = 201 → PublishBlueprint token name content
        (.respond ⟨st, stx, cl, .ok bb⟩) = some (true, none)) ∧
    (st ≠ 201 →
      (∀ e, (unmarshalEnvelope bb).2 = some e →
        PublishBlueprint token name content (.respond ⟨st, stx, cl, .ok bb⟩)
          = some (false, some e)) ∧
      ((unmarshalEnvelope bb).2 = none → (unmarshalEnvelope bb).1.Error = true →
        PublishBlueprint token name content (.respond ⟨st, stx, cl, .ok bb⟩)
          = some (false,
              some ("Creation failed: " ++ (unmarshalEnvelope bb).1.Message))) ∧
      ((unmarshalEnvelope bb).2 = none → (unmarshalEnvelope bb).1.Error = false →
        PublishBlueprint token name content (.respond ⟨st, stx, cl, .ok bb⟩)
          = some (true, none))) := by
  have hreq : newRequestError "POST"
      (ApiaryAPIURL ++ ApiaryActionPublishBlueprint name) = none :=
    newRequestError_ok _ _ validMethod_post hname
  have hread := readResponse_ok_nonempty st stx cl bb hcl hbb
  refine ⟨?_, fun hst => ⟨?_, ?_, ?_⟩⟩
  · intro h201
    subst h201
    simp only [PublishBlueprint, PublishBlueprintCall, sendLegacyPostRequest,
      request_respond_eq _ _ _ _ _ hreq, hread]
    simp
  · intro e he
    have hb : (st != 201) = true := bne_iff_ne.mpr hst
    rcases hu : unmarshalEnvelope bb with ⟨env, err⟩
    rw [hu] at he
    simp only at he
    subst he
    simp only [PublishBlueprint, PublishBlueprintCall, sendLegacyPostRequest,
      request_respond_eq _ _ _ _ _ hreq, hread]
    simp [hb, hu, hst]
  · intro he hE
    have hb : (st != 201) = true := bne_iff_ne.mpr hst
    rcases hu : unmarshalEnvelope bb with ⟨env, err⟩
    rw [hu] at he hE
    simp only at he hE
    subst he
    simp only [PublishBlueprint, PublishBlueprintCall, sendLegacyPostRequest,
      request_respond_eq _ _ _ _ _ hreq, hread]
    simp [hb, hu, hE, hst]
  · intro he hE
    have hb : (st != 201) = true := bne_iff_ne.mpr hst
    rcases hu : unmarshalEnvelope bb with ⟨env, err⟩
    rw [hu] at he hE
    simp only at he hE
    subst he
    simp only [PublishBlueprint, PublishBlueprintCall, sendLegacyPostRequest,
      request_respond_eq _ _ _ _ _ hreq, hread]
    simp [hb, hu, hE, hst]

/-- Witness for C1: a 201 publish succeeds; a 200 re-publish whose body
decodes to an envelope with the error flag clear also reports success;
and a 200 response whose envelope carries the error flag with message
`bad name` is rejected with `Creation failed: bad name`. -/
theorem publishBlueprint_response_cases_witness :
    PublishBlueprint "tok" "repo" "text"
        (.respond ⟨201, "201 Created", 0, .ok (.json (.obj []))⟩)
      = some (true, none) ∧
    PublishBlueprint "tok" "repo" "text"
        (.respond ⟨200, "200 OK", 0,
          .ok (.json (.obj [("error", .bool false)]))⟩)
      = some (true, none) ∧
    PublishBlueprint "tok" "repo" "text"
        (.respond ⟨200, "200 OK", 0,
          .ok (.json (.obj [("error", .bool true), ("message", .str "bad name")]))⟩)
      = some (false, some "Creation failed: bad name") := by
  refine ⟨?_, ?_, ?_⟩
  · exact (publishBlueprint_response_cases "tok" "repo" "text" "201 Created"
      201 0 (.json (.obj [])) (by decide) (by decide) rfl).1 rfl
  · exact ((publishBlueprint_response_cases "tok" "repo" "text" "200 OK"
      200 0 (.json (.obj [("error", .bool false)])) (by decide) (by decide)
      rfl).2 (by decide)).2.2 rfl rfl
  · exact ((publishBlueprint_response_cases "tok" "repo" "text" "200 OK"
      200 0 (.json (.obj [("error", .bool true), ("message", .str "bad name")]))
      (by decide) (by decide) rfl).2 (by decide)).2.1 rfl rfl

/-- C10: whenever `PublishBlueprint` returns (i.e. does not panic), the
published flag is `true` exactly when the error is nil: no path returns
success with an error or failure without one. -/
theorem publish_flag_iff_no_error (token name content : String)
    (t : TransportResult) (out : Bool × Option String)
    (h : PublishBlueprint token name content t = some out) :
    out.1 = true ↔ out.2 = none := by
  simp only [PublishBlueprint, PublishBlueprintCall, sendLegacyPostRequest] at h
  cases hne : newRequestError "POST"
      (ApiaryAPIURL ++ ApiaryActionPublishBlueprint name) with
  | some e =>
    cases t <;>
    · simp [request, hne] at h
      simp [← h]
  | none =>
    cases t with
    | fail e =>
      rw [request_fail_eq _ _ _ _ _ hne] at h
      simp at h
      simp [← h]
    | respond r =>
      rw [request_respond_eq _ _ _ _ _ hne] at h
      cases hr : readResponse r with
      | none => rw [hr] at h; simp at h
      | some exc =>
        rw [hr] at h
        cases exc with
        | error e =>
          simp at h
          simp [← h]
        | ok data =>
          simp only [Option.map_some] at h
          have h2 := Option.some.inj h
          rw [← h2]
          by_cases h201 : (r.statusCode != 201) = true
          · simp only [h201, if_true]
            rcases hu : unmarshalEnvelope data with ⟨env, err⟩
            cases err with
            | some e => simp
            | none => by_cases hE : env.Error <;> simp [hE]
          · simp only [h201]
            simp

/-- C5 counterexample: `Me` on a 200 response whose body is valid JSON
with `userId` a string but `userName` a number returns a non-nil decode
error together with a result whose `ID` field is populated — not the
zero value the claim requires on every failure path. -/
theorem me_partial_population_counterexample :
    Me "tok" (.respond ⟨200, "200 OK", 0,
        .ok (.json (.obj [("userId", .str "u1"), ("userName", .num 5)]))⟩)
      = some (⟨"u1", "", "", []⟩,
          some "json: cannot unmarshal number into Go value of type string") ∧
    (⟨"u1", "", "", []⟩ : ApiaryMeResponse) ≠ zeroMe :=
  ⟨rfl, by decide⟩

/-- C5 (corrected): every failure path of every operation returns a
non-nil error; the transport-failure, empty-body, mid-read-failure and
unexpected-status paths additionally return the zero-value/absent
result, a non-200 status on the GET-style operations carrying the
status line in its error; and on a 200 status the JSON decoder's
outcome is returned unchanged — its error never swallowed — where a
syntactically invalid body yields a non-nil error with the zero-value
result, while a type-mismatch decode failure may leave the result
partially populated. -/
theorem operations_failure_paths (token team name content : String) :
    GetOpFailureSpec zeroMe unmarshalMe (Me token) ∧
    GetOpFailureSpec none unmarshalApisPtr (GetApis token) ∧
    (hasCtlByte (ApiaryAPIURL ++ ApiaryActionGetTeamApis team) = false →
      GetOpFailureSpec none unmarshalApisPtr (GetTeamApis token team)) ∧
    (hasCtlByte (ApiaryAPIURL ++ ApiaryActionFetchBlueprint name) = false →
      GetOpFailureSpec none unmarshalFetchPtr (FetchBlueprint token name)) ∧
    (hasCtlByte (ApiaryAPIURL ++ ApiaryActionPublishBlueprint name) = false →
      (∀ e, PublishBlueprint token name content (.fail e)
        = some (false, some e)) ∧
      (∀ st stx cl, 0 ≤ cl →
        PublishBlueprint token name content (.respond ⟨st, stx, cl, .ok .empty⟩)
          = some (false, some "Empty response")) ∧
      (∀ st stx cl pre m, 0 ≤ cl →
        PublishBlueprint token name content
            (.respond ⟨st, stx, cl, .failsWith pre m⟩)
          = some (false, some m))) ∧
    (∀ s, unmarshalMe (.badJson s)
      = (zeroMe, some "invalid character in JSON input")) ∧
    (∀ s, unmarshalApisPtr (.badJson s)
      = (none, some "invalid character in JSON input")) ∧
    (∀ s, unmarshalFetchPtr (.badJson s)
      = (none, some "invalid character in JSON input")) := by
  refine ⟨?_, ?_, fun hteam => ?_, fun hfetch => ?_, fun hpub => ?_,
    fun s => rfl, fun s => rfl, fun s => rfl⟩
  · exact getPipelineSpec zeroMe unmarshalMe "GET" ApiaryActionMe
      [("Authorization", bearerToken token)] (Me token)
      (newRequestError_ok _ _ validMethod_get (by decide)) (fun t => rfl)
  · exact getPipelineSpec none unmarshalApisPtr "GET" ApiaryActionGetApis
      [("Authorization", bearerToken token)] (GetApis token)
      (newRequestError_ok _ _ validMethod_get (by decide)) (fun t => rfl)
  · exact getPipelineSpec none unmarshalApisPtr "GET"
      (ApiaryActionGetTeamApis team) [("Authorization", bearerToken token)]
      (GetTeamApis token team)
      (newRequestError_ok _ _ validMethod_get hteam) (fun t => rfl)
  · exact getPipelineSpec none unmarshalFetchPtr "GET"
      (ApiaryActionFetchBlueprint name)
      [("Authentication", bearerTokenLegacy token)]
      (FetchBlueprint token name)
      (newRequestError_ok _ _ validMethod_get hfetch) (fun t => rfl)
  · have hreq : newRequestError "POST"
        (ApiaryAPIURL ++ ApiaryActionPublishBlueprint name) = none :=
      newRequestError_ok _ _ validMethod_post hpub
    refine ⟨?_, ?_, ?_⟩
    · intro e
      simp only [PublishBlueprint, PublishBlueprintCall, sendLegacyPostRequest,
        request_fail_eq _ _ _ _ _ hreq]
      simp
    · intro st stx cl hcl
      simp only [PublishBlueprint, PublishBlueprintCall, sendLegacyPostRequest,
        request_respond_eq _ _ _ _ _ hreq, readResponse_ok_empty st stx cl hcl]
      simp
    · intro st stx cl pre m hcl
      simp only [PublishBlueprint, PublishBlueprintCall, sendLegacyPostRequest,
        request_respond_eq _ _ _ _ _ hreq,
        readResponse_failsWith st stx cl pre m hcl]
      simp

/-- Witness for C5: a transport failure on `Me` yields the zero result
with the transport's error, and a 500 status on `GetTeamApis` yields
the absent result with the status line in the error. -/
theorem operations_failure_paths_witness :
    Me "tok" (.fail "no route to host") = some (zeroMe, some "no route to host") ∧
    GetTeamApis "tok" "myteam"
        (.respond ⟨500, "500 Internal Server Error", 0, .ok (.json (.obj []))⟩)
      = some (none, some "Bad response code: 500 Internal Server Error") := by
  constructor
  · exact (operations_failure_paths "tok" "myteam" "repo" "text").1.1
      "no route to host"
  · exact ((operations_failure_paths "tok" "myteam" "repo" "text").2.2.1
      (by decide)).2.2.2.1 500 "500 Internal Server Error" 0 (.json (.obj []))
      (by decide) rfl (by decide)

/-- Witness for C10: a transport failure returns `published = false`
together with a non-nil error, satisfying the biconditional. -/
theorem publish_flag_iff_no_error_witness :
    (false = true ↔ (some "connection refused" : Option String) = none) :=
  publish_flag_iff_no_error "tok" "repo" "text" (.fail "connection refused")
    (false, some "connection refused") (by decide)

/-- Witness for C7: the URL `GetTeamApis` sends for the team name
`myteam` is the base URL with the team substituted verbatim into the
path template. -/
theorem request_url_construction_witness :
    (HttpRequest.mk "GET" "https://api.apiary.io/me/teams/myteam/apis"
        [("Authorization", "bearer tok")] none).url
      = "https://api.apiary.io/" ++ ("me/teams/" ++ "myteam" ++ "/apis") :=
  (request_url_construction "tok" "myteam" "repo" "content"
      (.fail "refused")).2.2.2.1
    (HttpRequest.mk "GET" "https://api.apiary.io/me/teams/myteam/apis"
      [("Authorization", "bearer tok")] none) rfl

end Apiary
